import Mathlib

/-!
Shallow embedding of the content-navigation engine of
`src/client/src/components/ContentNavigator/ContentDataProvider.ts`.

Remote model calls, user interaction and UI notifications are modelled by an
explicit environment (`Env`) of result functions, and every operation returns
its result together with the ordered list of observable effects (`Effect`)
it performs.  Concurrent per-item subtasks (`Promise.all` in the source) are
modelled by processing the items in submission order — one admissible schedule
of the single-threaded cooperative runtime described in the design.
-/

set_option autoImplicit false

namespace ContentNav

/-- URI model: scheme, path and query component (the query carries the file
id, mirroring `uri.query` in the source). -/
structure SasUri where
  scheme : String
  path : String
  query : String
deriving DecidableEq

/-- A typed link of a resource (`item.links` in the source). -/
structure Link where
  method : String
  rel : String
  uri : String
deriving DecidableEq

/-- Resource flags (`item.flags` in the source). -/
structure Flags where
  isInRecycleBin : Bool
deriving DecidableEq

/-- A node of the remote content tree (`ContentItem` in the source: identity,
name, kind tag, resource uri, parent folder uri, links and flags). -/
structure ContentItem where
  id : String
  name : String
  type : String
  uri : String
  parentFolderUri : String
  links : List Link
  flags : Flags
deriving DecidableEq

/- Kind tags of the `const` module (not under `src/`), modelled from the
closed kind set of the spec (§3, §9). Only distinctness matters. -/

def ROOT_FOLDER_TYPE : String := "RootFolder"

def MYFOLDER_TYPE : String := "MyFolder"

def TRASH_FOLDER_TYPE : String := "TrashFolder"

def FAVORITES_FOLDER_TYPE : String := "FavoritesFolder"

def FOLDER_TYPE : String := "Folder"

def REFERENCE_TYPE : String := "Reference"

/- Message identifiers of the `const` module (not under `src/`), modelled
from the spec's error taxonomy (§4.4, §7). Only distinctness matters. -/

def fileDropErrorMsg : String := "FileDropError"

def fileDragFromTrashErrorMsg : String := "FileDragFromTrashError"

def fileDragFromFavoritesMsg : String := "FileDragFromFavorites"

def fileUploadErrorMsg : String := "FileUploadError"

/-- Modelled from the spec: locator derivation (§3, §4.1 `locatorFor`) — a
pure function of the resource identity and the read-only flag; the query
component carries the file id (the `utils` module is not under `src/`). -/
def getUri (item : ContentItem) (readOnly : Bool) : SasUri :=
  { scheme := if readOnly then "sasReadOnly" else "sas"
    path := "/" ++ item.name
    query := "id=" ++ item.id }

/-- Modelled from the spec: `isContainer` (§4.1) — true iff the kind is a
folder variant, including the delegate folders. -/
def isContainer (item : ContentItem) : Bool :=
  item.type == ROOT_FOLDER_TYPE || item.type == MYFOLDER_TYPE ||
    item.type == TRASH_FOLDER_TYPE || item.type == FAVORITES_FOLDER_TYPE ||
    item.type == FOLDER_TYPE

/-- Modelled from the spec: `isReference` (§4.1) — a pure predicate over the
kind tag. -/
def isReference (item : ContentItem) : Bool :=
  item.type == REFERENCE_TYPE

/-- Modelled from the spec: `isInRecycleBin` (§4.1) — a pure predicate over
the flags. -/
def isItemInRecycleBin (item : ContentItem) : Bool :=
  item.flags.isInRecycleBin

/-- Modelled from the spec: `getLink` of the `utils` module — looks up the
link with the given method and relation name in a links table. -/
def getLink (links : List Link) (method rel : String) : Option Link :=
  links.find? (fun l => l.method == method && l.rel == rel)

/-- The uri of a link when present and non-empty; `none` models the
JavaScript falsiness check `if (!uri)` applied to `getLink(...)?.uri`. -/
def linkUri (links : List Link) (method rel : String) : Option String :=
  match getLink links method rel with
  | none => none
  | some l => if l.uri = "" then none else some l.uri

/-- Modelled from the spec: `getResourceIdFromItem` of the `utils` module —
the canonical addressable locator of an item, absent when the item carries
no address. -/
def getResourceIdFromItem (item : ContentItem) : Option String :=
  if item.uri = "" then none else some item.uri

/-- Last path component, as `basename` of the `path` module. -/
def basename (p : String) : String :=
  (p.splitOn "/").getLastD p

/-- Path concatenation, as `join` of the `path` module. -/
def joinPath (p n : String) : String := p ++ "/" ++ n

/-- Editor tab inputs: text documents, notebooks, or anything else. -/
inductive TabInput where
  | text (uri : SasUri)
  | notebook (uri : SasUri)
  | other
deriving DecidableEq

/-- An open editor tab. -/
structure Tab where
  input : TabInput
deriving DecidableEq

/-- The query component compared by `closeFileIfOpen`, defined for text and
notebook tabs only. -/
def tabQuery (t : Tab) : Option String :=
  match t.input with
  | TabInput.text u => some u.query
  | TabInput.notebook u => some u.query
  | TabInput.other => none

/-- Result of `closeFileIfOpen`: either the literal `true` returned when no
matching tab exists, or the boolean outcome of the editor's close request. -/
inductive ClosingResult where
  | noTab
  | closed (ok : Bool)
deriving DecidableEq

/-- The truthiness of a `ClosingResult` once awaited. -/
def ClosingResult.toBool : ClosingResult → Bool
  | ClosingResult.noTab => true
  | ClosingResult.closed b => b

/-- Observable effects, listed in execution order: UI notifications, editor
actions, remote model calls and local file-system actions. -/
inductive Effect where
  | refresh
  | docChanged (uri : SasUri)
  | showError (msg : String) (name : String)
  | revealItem (item : ContentItem)
  | closeTab
  | openDoc (uri : SasUri)
  | remoteCreateFolder (parentUri : String) (name : String)
  | remoteCreateFile (parentUri : String) (name : String)
  | remoteRename (itemUri : String) (newName : String)
  | remoteDelete (itemUri : String)
  | remoteMove (itemUri : String) (destUri : String)
  | remoteAddFavorite (itemUri : String)
  | remoteRemoveFavorite (itemUri : String)
  | fetchChildren (parentUri : String)
  | readContent (uri : SasUri)
  | fsCreateDir (path : String)
  | fsWriteFile (path : String)
deriving DecidableEq

/-- The environment: outcomes of the abstract Content Repository calls, the
open editor tabs, and the user's answer to a close confirmation. -/
structure Env where
  createFolderResult : ContentItem → String → Option ContentItem
  createFileResult : ContentItem → String → Option ContentItem
  renameResult : ContentItem → String → Option ContentItem
  deleteResult : ContentItem → Bool
  moveToResult : ContentItem → String → Bool
  addFavoriteResult : ContentItem → Bool
  removeFavoriteResult : ContentItem → Bool
  delegateFolder : String → Option ContentItem
  childrenOf : Option ContentItem → List ContentItem
  openTabs : List Tab
  closeTabResult : Bool

/-- The tab whose text or notebook uri has the same query component as the
item's uri (derived read-only exactly when the item is in the recycle bin);
the flattening of all tab groups is `Env.openTabs`. -/
def matchingTab (env : Env) (item : ContentItem) : Option Tab :=
  env.openTabs.find? (fun t =>
    match t.input with
    | TabInput.text u =>
      u.query == (getUri item (isItemInRecycleBin item)).query
    | TabInput.notebook u =>
      u.query == (getUri item (isItemInRecycleBin item)).query
    | TabInput.other => false)

/-- `closeFileIfOpen`: when a matching tab exists, request its close and
return the editor's answer; otherwise return the literal `true`. -/
def closeFileIfOpen (env : Env) (item : ContentItem) :
    ClosingResult × List Effect :=
  match matchingTab env item with
  | some _ => (ClosingResult.closed env.closeTabResult, [Effect.closeTab])
  | none => (ClosingResult.noTab, [])

/-- `getChildren` of the provider, delegating to the model. -/
def getChildrenE (env : Env) (item : Option ContentItem) :
    List ContentItem × List Effect :=
  (env.childrenOf item,
    [Effect.fetchChildren (match item with | some i => i.uri | none => "")])

/-- `createFolder` of the provider: model call, then refresh and return the
new uri on success. -/
def createFolder (env : Env) (item : ContentItem) (folderName : String) :
    Option SasUri × List Effect :=
  match env.createFolderResult item folderName with
  | some newItem =>
    (some (getUri newItem false),
      [Effect.remoteCreateFolder item.uri folderName, Effect.refresh])
  | none => (none, [Effect.remoteCreateFolder item.uri folderName])

/-- `createFile` of the provider: model call, then refresh and return the
new uri on success.  The buffer takes no part in the control flow. -/
def createFile (env : Env) (item : ContentItem) (fileName : String)
    (_buffer : Option String) : Option SasUri × List Effect :=
  match env.createFileResult item fileName with
  | some newItem =>
    (some (getUri newItem false),
      [Effect.remoteCreateFile item.uri fileName, Effect.refresh])
  | none => (none, [Effect.remoteCreateFile item.uri fileName])

/-- `renameResource`: close a matching open editor first; abort when the
close is declined; on a successful rename re-open the document at the new
uri exactly when the close result was not the literal `true`. -/
def renameResource (env : Env) (item : ContentItem) (name : String) :
    Option SasUri × List Effect :=
  let c := closeFileIfOpen env item
  if c.1.toBool then
    match env.renameResult item name with
    | none => (none, c.2 ++ [Effect.remoteRename item.uri name])
    | some newItem =>
      (some (getUri newItem false),
        c.2 ++ Effect.remoteRename item.uri name ::
          (if c.1 = ClosingResult.noTab then []
           else [Effect.openDoc (getUri newItem false)]))
  else (none, c.2)

/-- `deleteResource`: close-before-delete, then model delete, refreshing on
success. -/
def deleteResource (env : Env) (item : ContentItem) : Bool × List Effect :=
  let c := closeFileIfOpen env item
  if c.1.toBool then
    let success := env.deleteResult item
    (success,
      c.2 ++ Effect.remoteDelete item.uri ::
        (if success then [Effect.refresh] else []))
  else (false, c.2)

/-- `recycleResource`: fall back to delete when no recycle-bin delegate
exists; fail when its self address cannot be resolved; otherwise
close-before-move, and on success refresh and re-publish the document
content at the item's previous read-only uri. -/
def recycleResource (env : Env) (item : ContentItem) : Bool × List Effect :=
  match env.delegateFolder "@myRecycleBin" with
  | none => deleteResource env item
  | some recycleBin =>
    match linkUri recycleBin.links "GET" "self" with
    | none => (false, [])
    | some recycleBinUri =>
      let c := closeFileIfOpen env item
      if c.1.toBool then
        let success := env.moveToResult item recycleBinUri
        (success,
          c.2 ++ Effect.remoteMove item.uri recycleBinUri ::
            (if success then
              [Effect.refresh, Effect.docChanged (getUri item true)]
             else []))
      else (false, c.2)

/-- `restoreResource`: requires a `previousParent` link, applies
close-before-move, refreshing on success. -/
def restoreResource (env : Env) (item : ContentItem) : Bool × List Effect :=
  match linkUri item.links "GET" "previousParent" with
  | none => (false, [])
  | some previousParentUri =>
    let c := closeFileIfOpen env item
    if c.1.toBool then
      let success := env.moveToResult item previousParentUri
      (success,
        c.2 ++ Effect.remoteMove item.uri previousParentUri ::
          (if success then [Effect.refresh] else []))
    else (false, c.2)

/-- `emptyRecycleBin`: delete every child of the recycle-bin delegate and
compare the number of outcomes with the number of children. -/
def emptyRecycleBin (env : Env) : Bool × List Effect :=
  let recycleBin := env.delegateFolder "@myRecycleBin"
  let fetched := getChildrenE env recycleBin
  let children := fetched.1
  let results := children.map (fun child => deleteResource env child)
  let result := results.map Prod.fst
  let success : Bool := result.length == children.length
  (success,
    fetched.2 ++ (results.map Prod.snd).flatten ++
      (if success then [Effect.refresh] else []))

/-- `addToMyFavorites`: model call, refreshing on success. -/
def addToMyFavorites (env : Env) (item : ContentItem) : Bool × List Effect :=
  let success := env.addFavoriteResult item
  (success,
    Effect.remoteAddFavorite item.uri ::
      (if success then [Effect.refresh] else []))

/-- `removeFromMyFavorites`: model call, refreshing on success. -/
def removeFromMyFavorites (env : Env) (item : ContentItem) :
    Bool × List Effect :=
  let success := env.removeFavoriteResult item
  (success,
    Effect.remoteRemoveFavorite item.uri ::
      (if success then [Effect.refresh] else []))

/-- `handleCreationResponse`: error message when no uri was produced,
otherwise reveal the resource in the tree. -/
def handleCreationResponse (resource : ContentItem) (newUri : Option SasUri)
    (errorMessage : String) : List Effect :=
  match newUri with
  | none => [Effect.showError errorMessage ""]
  | some _ => [Effect.revealItem resource]

/-- The error appended by `handleContentItemDrop` after a failed branch: the
branch result unchanged, followed by a drop-error message naming the item. -/
def withDropErr (item : ContentItem) (r : Bool × List Effect) :
    Bool × List Effect :=
  (r.1, r.2 ++ (if r.1 then [] else [Effect.showError fileDropErrorMsg item.name]))

/-- `handleContentItemDrop`: rejection of recycle-bin items, then of
references, then delegate-target dispatch (recycle, favorite), then a plain
move to the target's locator.  The boolean is the function's final local
`success` flag (observable through the error message). -/
def handleContentItemDrop (env : Env) (target item : ContentItem) :
    Bool × List Effect :=
  if item.flags.isInRecycleBin then
    (false, [Effect.showError fileDragFromTrashErrorMsg item.name])
  else if isReference item then
    (false, [Effect.showError fileDragFromFavoritesMsg item.name])
  else if target.type = TRASH_FOLDER_TYPE then
    withDropErr item (recycleResource env item)
  else if target.type = FAVORITES_FOLDER_TYPE then
    withDropErr item (addToMyFavorites env item)
  else
    match getResourceIdFromItem target with
    | some targetUri =>
      withDropErr item
        (env.moveToResult item targetUri,
          Effect.remoteMove item.uri targetUri ::
            (if env.moveToResult item targetUri then [Effect.refresh] else []))
    | none => (false, [Effect.showError fileDropErrorMsg item.name])

/-- An entry of an external directory: a regular file with its content, or a
subdirectory with its entries. -/
inductive FsEntry where
  | file (name : String) (content : String)
  | dir (name : String) (entries : List FsEntry)

/-- The per-entry loop of `handleFolderDrop`, carrying the shared mutable
`success` flag: a subdirectory entry overwrites the flag with the recursive
result (the recursive call always displays error messages), a failed file
entry sets it to `false` and reports the name when messages are enabled. -/
def dropEntries (env : Env)
    (handleDir : ContentItem → String → List FsEntry → Bool × List Effect)
    (folderItem : ContentItem) (path : String) (dem : Bool) :
    List FsEntry → Bool → Bool × List Effect
  | [], success => (success, [])
  | FsEntry.dir name sub :: rest, _ =>
    let d := handleDir folderItem (joinPath path name) sub
    let r := dropEntries env handleDir folderItem path dem rest d.1
    (r.1, d.2 ++ r.2)
  | FsEntry.file name content :: rest, success =>
    let f := createFile env folderItem name (some content)
    let success2 := if f.1.isSome then success else false
    let errs :=
      if f.1.isSome then []
      else if dem then [Effect.showError fileDropErrorMsg name] else []
    let r := dropEntries env handleDir folderItem path dem rest success2
    (r.1, f.2 ++ errs ++ r.2)

/-- `handleFolderDrop`: create the matching remote folder first — aborting
the branch, and reporting the folder's name when messages are enabled, on
failure — then process every entry, recursing into subdirectories.  The
fuel bounds the recursion depth of the embedding only. -/
def handleFolderDrop : Nat → Env → ContentItem → String → List FsEntry →
    Bool → Bool × List Effect
  | 0, _, _, _, _, _ => (false, [])
  | fuel + 1, env, target, path, entries, dem =>
    match env.createFolderResult target (basename path) with
    | none =>
      (false,
        Effect.remoteCreateFolder target.uri (basename path) ::
          (if dem then [Effect.showError fileDropErrorMsg (basename path)]
           else []))
    | some folderItem =>
      let r := dropEntries env
        (fun fi p es => handleFolderDrop fuel env fi p es true)
        folderItem path dem entries true
      (r.1, Effect.remoteCreateFolder target.uri (basename path) :: r.2)

/-- An external uri of a drop or upload payload, resolved by a stat call to a
directory (with its entries) or a regular file (with its content). -/
inductive LocalUri where
  | dirUri (path : String) (entries : List FsEntry)
  | fileUri (path : String) (content : String)

/-- The sequential upload loop of `uploadUrisToTarget`, accumulating the
names of failed items. -/
def uploadLoop (fuel : Nat) (env : Env) (target : ContentItem) :
    List LocalUri → List String → List String × List Effect
  | [], failed => (failed, [])
  | LocalUri.dirUri path entries :: rest, failed =>
    let d := handleFolderDrop fuel env target path entries false
    let failed2 := if d.1 then failed else failed ++ [basename path]
    let r := uploadLoop fuel env target rest failed2
    (r.1, d.2 ++ r.2)
  | LocalUri.fileUri path content :: rest, failed =>
    let f := createFile env target (basename path) (some content)
    let failed2 := if f.1.isSome then failed else failed ++ [basename path]
    let r := uploadLoop fuel env target rest failed2
    (r.1, f.2 ++ r.2)

/-- `uploadUrisToTarget`: process each uri in order, then raise a single
consolidated notification exactly when some item failed. -/
def uploadUrisToTarget (fuel : Nat) (env : Env) (uris : List LocalUri)
    (target : ContentItem) : List String × List Effect :=
  let r := uploadLoop fuel env target uris []
  (r.1,
    r.2 ++
      (if r.1.length > 0 then
        handleCreationResponse target none fileUploadErrorMsg
       else []))

/-- `handleDataTransferItemDrop`: each external uri is handled on its own —
directories through `handleFolderDrop` (with a refresh on success), files
through `createFile` (with an error message on failure). -/
def handleDataTransferItemDrop (fuel : Nat) (env : Env)
    (target : ContentItem) (uris : List LocalUri) : List Effect :=
  (uris.map (fun u =>
    match u with
    | LocalUri.dirUri path entries =>
      let d := handleFolderDrop fuel env target path entries true
      d.2 ++ (if d.1 then [Effect.refresh] else [])
    | LocalUri.fileUri path content =>
      let f := createFile env target (basename path) (some content)
      f.2 ++
        (match f.1 with
         | some _ => []
         | none => [Effect.showError fileDropErrorMsg (basename path)]))).flatten

/-- `handleDrop`: the internal-item channel then the uri-list channel, each
present channel processed item by item. -/
def handleDrop (fuel : Nat) (env : Env) (target : ContentItem)
    (contentItems : Option (List ContentItem))
    (uriItems : Option (List LocalUri)) : List Effect :=
  (match contentItems with
   | some its =>
     (its.map (fun it => (handleContentItemDrop env target it).2)).flatten
   | none => []) ++
  (match uriItems with
   | some us => handleDataTransferItemDrop fuel env target us
   | none => [])

/-- `childrenSelections`: the sub-selections whose parent folder uri equals
the container's uri; when there are none the full child list is fetched
fresh from the model. -/
def childrenSelections (env : Env) (selection : ContentItem)
    (allSelections : List ContentItem) : List ContentItem × List Effect :=
  let foundSelections :=
    allSelections.filter (fun fs => fs.parentFolderUri == selection.uri)
  if foundSelections.length > 0 then (foundSelections, [])
  else
    let g := getChildrenE env (some selection)
    (g.1, g.2)

/-- The per-selection loop of `downloadContentItems`, concatenating each
selection's trace in order. -/
def downloadList (step : ContentItem → List Effect) :
    List ContentItem → List Effect
  | [] => []
  | sel :: rest => step sel ++ downloadList step rest

/-- `downloadContentItems`: depth-first export — for a container, compute the
effective children, create the destination directory, and recurse into it;
for a file, read its content and write it under the destination.  The fuel
bounds the recursion depth of the embedding only. -/
def downloadContentItems : Nat → Env → String → List ContentItem →
    List ContentItem → List Effect
  | 0, _, _, _, _ => []
  | fuel + 1, env, folderUri, selections, allSelections =>
    downloadList (fun sel =>
      if isContainer sel then
        (childrenSelections env sel allSelections).2 ++
          Effect.fsCreateDir (joinPath folderUri sel.name) ::
            downloadContentItems fuel env (joinPath folderUri sel.name)
              (childrenSelections env sel allSelections).1 allSelections
      else
        [Effect.readContent (getUri sel false),
          Effect.fsWriteFile (joinPath folderUri sel.name)]) selections

/-- Recognizer of the tree-shape-changed notification. -/
def isRefreshE : Effect → Bool
  | Effect.refresh => true
  | _ => false

/-- Number of tree-shape-changed notifications in a trace. -/
def countRefresh (tr : List Effect) : Nat := tr.countP isRefreshE

/-- Recognizer of remote creation attempts (folders and files). -/
def isCreateAttempt : Effect → Bool
  | Effect.remoteCreateFolder _ _ => true
  | Effect.remoteCreateFile _ _ => true
  | _ => false

/-- Number of remote creation attempts in a trace. -/
def countAttempts (tr : List Effect) : Nat := tr.countP isCreateAttempt

/-- Recognizer of remote file creations. -/
def isFileCreate : Effect → Bool
  | Effect.remoteCreateFile _ _ => true
  | _ => false

/-- Number of remote file creations in a trace. -/
def countFileCreates (tr : List Effect) : Nat := tr.countP isFileCreate

/-- Recognizer of the consolidated upload-failure notification. -/
def isUploadErr : Effect → Bool
  | Effect.showError m _ => m == fileUploadErrorMsg
  | _ => false

/-- Number of consolidated upload-failure notifications in a trace. -/
def countUploadErr (tr : List Effect) : Nat := tr.countP isUploadErr

/-- An entry with no nested entries: a file, or an empty subdirectory. -/
def shallowEntry : FsEntry → Bool
  | FsEntry.file _ _ => true
  | FsEntry.dir _ sub => sub.isEmpty

/-- A plain item with no links and clear flags. -/
def mkItem (id name type uri parentUri : String) : ContentItem :=
  { id := id, name := name, type := type, uri := uri,
    parentFolderUri := parentUri, links := [],
    flags := { isInRecycleBin := false } }

/-- An environment in which every repository call fails and no editor tab is
open; concrete scenarios override the relevant fields. -/
def baseEnv : Env :=
  { createFolderResult := fun _ _ => none
    createFileResult := fun _ _ => none
    renameResult := fun _ _ => none
    deleteResult := fun _ => false
    moveToResult := fun _ _ => false
    addFavoriteResult := fun _ => false
    removeFavoriteResult := fun _ => false
    delegateFolder := fun _ => none
    childrenOf := fun _ => []
    openTabs := []
    closeTabResult := true }

/-- The recycle-bin delegate folder, carrying its self link. -/
def trashBin : ContentItem :=
  { mkItem "trash" "RecycleBin" TRASH_FOLDER_TYPE "/trash" "/" with
      links := [{ method := "GET", rel := "self", uri := "/trash" }] }

/-- A recycle-bin delegate folder whose self address cannot be resolved. -/
def trashBinNoSelf : ContentItem :=
  mkItem "trash2" "RecycleBin" TRASH_FOLDER_TYPE "/trash2" "/"

/-- A trashed file living under the recycle bin. -/
def trashChild : ContentItem :=
  { mkItem "doomed" "doomed.sas" "file" "/trash/doomed" "/trash" with
      flags := { isInRecycleBin := true } }

/-- Trash with one child whose deletion fails. -/
def env1 : Env :=
  { baseEnv with
      delegateFolder := fun n =>
        if n = "@myRecycleBin" then some trashBin else none
      childrenOf := fun p => match p with | some _ => [trashChild] | none => [] }

/-- A generic folder used as a drop target. -/
def dropTarget : ContentItem := mkItem "t" "Target" FOLDER_TYPE "/t" "/"

/-- Remote folder creation always succeeds, remote file creation always
fails. -/
def env2 : Env :=
  { baseEnv with
      createFolderResult := fun parent nm =>
        some (mkItem nm nm FOLDER_TYPE (joinPath parent.uri nm) parent.uri) }

/-- An item flagged as living in the recycle bin. -/
def binItem : ContentItem :=
  { mkItem "b3" "b3" "file" "uri3b" "root" with
      flags := { isInRecycleBin := true } }

/-- A favorite reference item. -/
def refItem : ContentItem := mkItem "r3" "r3" REFERENCE_TYPE "uri3r" "root"

/-- An ordinary file item. -/
def plainItem : ContentItem := mkItem "p3" "p3" "file" "uri3p" "root"

/-- The favorites delegate folder. -/
def favTarget : ContentItem :=
  mkItem "fav" "Favorites" FAVORITES_FOLDER_TYPE "uriFav" "/"

/-- An ordinary folder target. -/
def plainTarget : ContentItem := mkItem "pt" "pt" FOLDER_TYPE "uriPt" "/"

/-- A file item whose document may be open in a tab. -/
def item4 : ContentItem := mkItem "f4" "f4.sas" "file" "uri4" "root"

/-- A text tab open at `item4`'s (read-write) uri. -/
def tab4 : Tab := { input := TabInput.text (getUri item4 false) }

/-- `item4` open in a tab, and the user declines the close. -/
def env4a : Env :=
  { baseEnv with openTabs := [tab4], closeTabResult := false }

/-- `item4` open in a tab, the close succeeds, and the rename succeeds. -/
def env4b : Env :=
  { baseEnv with
      openTabs := [tab4], closeTabResult := true
      renameResult := fun _ nm => some (mkItem "f4" nm "file" "uri4" "root") }

/-- No tab open; the rename succeeds. -/
def env4c : Env :=
  { baseEnv with
      renameResult := fun _ nm => some (mkItem "f4" nm "file" "uri4" "root") }

/-- Exported container `A` with two explicitly selected children. -/
def folderA : ContentItem := mkItem "A" "A" FOLDER_TYPE "uriA" "root"

/-- Selected child `x` of `A`. -/
def fileX : ContentItem := mkItem "x" "x" "file" "uriX" "uriA"

/-- Selected child `y` of `A`. -/
def fileY : ContentItem := mkItem "y" "y" "file" "uriY" "uriA"

/-- The model would report a different child `z` for `A`; a fetch would be
visible both through the trace and through `z` being written. -/
def envA : Env :=
  { baseEnv with childrenOf := fun _ => [mkItem "z" "z" "file" "uriZ" "uriA"] }

/-- Every move succeeds; used to drop two items successfully. -/
def env7 : Env := { baseEnv with moveToResult := fun _ _ => true }

/-- First dropped item. -/
def item7a : ContentItem := mkItem "a7" "a7" "file" "uri7a" "root"

/-- Second dropped item. -/
def item7b : ContentItem := mkItem "b7" "b7" "file" "uri7b" "root"

/-- A recycle-bin delegate exists with a resolvable self address and the move
succeeds. -/
def env8 : Env :=
  { baseEnv with
      delegateFolder := fun n =>
        if n = "@myRecycleBin" then some trashBin else none
      moveToResult := fun _ _ => true }

/-- The recycle-bin delegate exists but its self address cannot be
resolved. -/
def env8b : Env :=
  { baseEnv with
      delegateFolder := fun n =>
        if n = "@myRecycleBin" then some trashBinNoSelf else none
      moveToResult := fun _ _ => true }

/-- A trashed item whose read-only document is open in a notebook tab whose
uri agrees with the item's read-only uri only in the query component. -/
def item9 : ContentItem :=
  { mkItem "f9" "f9.sas" "file" "uri9" "root" with
      flags := { isInRecycleBin := true } }

/-- A notebook tab agreeing with `item9`'s read-only uri in the query
component only (different scheme and path). -/
def tab9 : Tab :=
  { input := TabInput.notebook
      { scheme := "other", path := "/elsewhere", query := "id=f9" } }

/-- Only `tab9` is open. -/
def env9 : Env := { baseEnv with openTabs := [tab9] }

theorem closeFileIfOpen_cases (env : Env) (item : ContentItem) :
    closeFileIfOpen env item = (ClosingResult.noTab, []) ∨
      closeFileIfOpen env item =
        (ClosingResult.closed env.closeTabResult, [Effect.closeTab]) := by
  unfold closeFileIfOpen
  cases matchingTab env item <;> simp

theorem countRefresh_append (a b : List Effect) :
    countRefresh (a ++ b) = countRefresh a + countRefresh b := by
  simp [countRefresh, List.countP_append]

theorem countRefresh_createFolder (env : Env) (item : ContentItem)
    (nm : String) :
    countRefresh (createFolder env item nm).2 =
      if (createFolder env item nm).1.isSome then 1 else 0 := by
  cases hc : env.createFolderResult item nm <;>
    simp [createFolder, hc, countRefresh, List.countP_cons, List.countP_nil,
      isRefreshE]

theorem countRefresh_createFile (env : Env) (item : ContentItem)
    (nm : String) (buf : Option String) :
    countRefresh (createFile env item nm buf).2 =
      if (createFile env item nm buf).1.isSome then 1 else 0 := by
  cases hc : env.createFileResult item nm <;>
    simp [createFile, hc, countRefresh, List.countP_cons, List.countP_nil,
      isRefreshE]

theorem countRefresh_deleteResource (env : Env) (item : ContentItem) :
    countRefresh (deleteResource env item).2 =
      if (deleteResource env item).1 then 1 else 0 := by
  rcases closeFileIfOpen_cases env item with h | h <;>
    cases hd : env.deleteResult item <;>
      cases hb : env.closeTabResult <;>
        simp [deleteResource, h, hd, hb, ClosingResult.toBool, countRefresh,
          List.countP_append, List.countP_cons, List.countP_nil, isRefreshE]

theorem countRefresh_recycleResource (env : Env) (item : ContentItem) :
    countRefresh (recycleResource env item).2 =
      if (recycleResource env item).1 then 1 else 0 := by
  cases hdel : env.delegateFolder "@myRecycleBin" with
  | none =>
    simp only [recycleResource, hdel]
    exact countRefresh_deleteResource env item
  | some bin =>
    cases hl : linkUri bin.links "GET" "self" with
    | none => simp [recycleResource, hdel, hl, countRefresh, List.countP_nil]
    | some u =>
      rcases closeFileIfOpen_cases env item with h | h <;>
        cases hm : env.moveToResult item u <;>
          cases hb : env.closeTabResult <;>
            simp [recycleResource, hdel, hl, h, hm, hb, ClosingResult.toBool,
              countRefresh, List.countP_append, List.countP_cons,
              List.countP_nil, isRefreshE]

theorem countRefresh_restoreResource (env : Env) (item : ContentItem) :
    countRefresh (restoreResource env item).2 =
      if (restoreResource env item).1 then 1 else 0 := by
  cases hl : linkUri item.links "GET" "previousParent" with
  | none => simp [restoreResource, hl, countRefresh, List.countP_nil]
  | some u =>
    rcases closeFileIfOpen_cases env item with h | h <;>
      cases hm : env.moveToResult item u <;>
        cases hb : env.closeTabResult <;>
          simp [restoreResource, hl, h, hm, hb, ClosingResult.toBool,
            countRefresh, List.countP_append, List.countP_cons,
            List.countP_nil, isRefreshE]

theorem countRefresh_addToMyFavorites (env : Env) (item : ContentItem) :
    countRefresh (addToMyFavorites env item).2 =
      if (addToMyFavorites env item).1 then 1 else 0 := by
  cases ha : env.addFavoriteResult item <;>
    simp [addToMyFavorites, ha, countRefresh, List.countP_cons,
      List.countP_nil, isRefreshE]

theorem countRefresh_removeFromMyFavorites (env : Env) (item : ContentItem) :
    countRefresh (removeFromMyFavorites env item).2 =
      if (removeFromMyFavorites env item).1 then 1 else 0 := by
  cases ha : env.removeFavoriteResult item <;>
    simp [removeFromMyFavorites, ha, countRefresh, List.countP_cons,
      List.countP_nil, isRefreshE]

theorem countRefresh_renameResource (env : Env) (item : ContentItem)
    (nm : String) :
    countRefresh (renameResource env item nm).2 = 0 := by
  rcases closeFileIfOpen_cases env item with h | h <;>
    cases hr : env.renameResult item nm <;>
      cases hb : env.closeTabResult <;>
        simp [renameResource, h, hr, hb, ClosingResult.toBool, countRefresh,
          List.countP_append, List.countP_cons, List.countP_nil, isRefreshE]

theorem withDropErr_fst (item : ContentItem) (r : Bool × List Effect) :
    (withDropErr item r).1 = r.1 := rfl

theorem countRefresh_withDropErr (item : ContentItem)
    (r : Bool × List Effect) :
    countRefresh (withDropErr item r).2 = countRefresh r.2 := by
  cases hr : r.1 <;>
    simp [withDropErr, hr, countRefresh, List.countP_append, List.countP_cons,
      List.countP_nil, isRefreshE]

theorem countRefresh_handleContentItemDrop (env : Env)
    (target item : ContentItem) :
    countRefresh (handleContentItemDrop env target item).2 =
      if (handleContentItemDrop env target item).1 then 1 else 0 := by
  by_cases h1 : item.flags.isInRecycleBin = true
  · simp [handleContentItemDrop, h1, countRefresh, List.countP_cons,
      List.countP_nil, isRefreshE]
  · by_cases h2 : isReference item = true
    · simp [handleContentItemDrop, h1, h2, countRefresh, List.countP_cons,
        List.countP_nil, isRefreshE]
    · by_cases h3 : target.type = TRASH_FOLDER_TYPE
      · simp only [handleContentItemDrop, if_neg h1, if_neg h2, if_pos h3]
        simp [countRefresh_withDropErr, withDropErr_fst,
          countRefresh_recycleResource]
      · by_cases h4 : target.type = FAVORITES_FOLDER_TYPE
        · simp only [handleContentItemDrop, if_neg h1, if_neg h2, if_neg h3,
            if_pos h4]
          simp [countRefresh_withDropErr, withDropErr_fst,
            countRefresh_addToMyFavorites]
        · cases ht : getResourceIdFromItem target with
          | none =>
            simp [handleContentItemDrop, if_neg h1, if_neg h2, if_neg h3,
              if_neg h4, ht, countRefresh, List.countP_cons, List.countP_nil,
              isRefreshE]
          | some turi =>
            cases hm : env.moveToResult item turi <;>
              simp [handleContentItemDrop, if_neg h1, if_neg h2, if_neg h3,
                if_neg h4, ht, hm, withDropErr, countRefresh,
                List.countP_append, List.countP_cons, List.countP_nil,
                isRefreshE]

/-- C1: `emptyRecycleBin` reports success even though the deletion of the
single trash child failed — the comparison `result.length === children.length`
is always true, so partial failure is silently reported as success. -/
theorem emptyRecycleBin_reports_success_despite_failed_delete :
    (emptyRecycleBin env1).1 = true ∧
      (deleteResource env1 trashChild).1 = false := by
  constructor <;> rfl

/-- C2: the shared `success` flag of `handleFolderDrop` flips back to `true`:
in a directory whose first entry is a file whose creation fails (the failure
is reported) and whose second entry is a subdirectory that imports
successfully, the subdirectory's recursive result overwrites the recorded
failure and the whole call returns `true`. -/
theorem handleFolderDrop_success_flag_flips_back :
    (handleFolderDrop 2 env2 dropTarget "d"
        [FsEntry.file "f" "", FsEntry.dir "s" []] true).1 = true ∧
      Effect.showError fileDropErrorMsg "f" ∈
        (handleFolderDrop 2 env2 dropTarget "d"
          [FsEntry.file "f" "", FsEntry.dir "s" []] true).2 := by
  constructor
  · decide
  · decide

/-- C3: drop precedence of `handleContentItemDrop` — an item flagged as in
the recycle bin is rejected with the trash-drag error whatever the target
(the favorites folder included), then a reference is rejected with the
favorites-drag error, then a trash-folder target causes recycle, then a
favorites-folder target causes add-favorite, and otherwise the item is moved
to the target's locator. -/
theorem handleContentItemDrop_precedence (env : Env)
    (target item : ContentItem) :
    (item.flags.isInRecycleBin = true →
      handleContentItemDrop env target item =
        (false, [Effect.showError fileDragFromTrashErrorMsg item.name])) ∧
    (item.flags.isInRecycleBin = false → isReference item = true →
      handleContentItemDrop env target item =
        (false, [Effect.showError fileDragFromFavoritesMsg item.name])) ∧
    (item.flags.isInRecycleBin = false → isReference item = false →
      target.type = TRASH_FOLDER_TYPE →
      handleContentItemDrop env target item =
        withDropErr item (recycleResource env item)) ∧
    (item.flags.isInRecycleBin = false → isReference item = false →
      target.type ≠ TRASH_FOLDER_TYPE → target.type = FAVORITES_FOLDER_TYPE →
      handleContentItemDrop env target item =
        withDropErr item (addToMyFavorites env item)) ∧
    (∀ targetUri : String,
      item.flags.isInRecycleBin = false → isReference item = false →
      target.type ≠ TRASH_FOLDER_TYPE → target.type ≠ FAVORITES_FOLDER_TYPE →
      getResourceIdFromItem target = some targetUri →
      handleContentItemDrop env target item =
        withDropErr item
          (env.moveToResult item targetUri,
            Effect.remoteMove item.uri targetUri ::
              (if env.moveToResult item targetUri then [Effect.refresh]
               else []))) := by
  refine ⟨fun h1 => ?_, fun h1 h2 => ?_, fun h1 h2 h3 => ?_,
    fun h1 h2 h3 h4 => ?_, fun turi h1 h2 h3 h4 ht => ?_⟩
  · simp [handleContentItemDrop, h1]
  · simp [handleContentItemDrop, h1, h2]
  · simp [handleContentItemDrop, h1, h2, if_pos h3]
  · simp [handleContentItemDrop, h1, h2, if_neg h3, if_pos h4]
  · simp [handleContentItemDrop, h1, h2, if_neg h3, if_neg h4, ht]

/-- Witness for C3: each precedence branch exercised at a concrete input —
in particular a recycle-bin item dropped on the favorites folder still
produces the trash-drag rejection. -/
theorem handleContentItemDrop_precedence_witness :
    handleContentItemDrop env7 favTarget binItem =
        (false, [Effect.showError fileDragFromTrashErrorMsg binItem.name]) ∧
    handleContentItemDrop env7 favTarget refItem =
        (false, [Effect.showError fileDragFromFavoritesMsg refItem.name]) ∧
    handleContentItemDrop env7 trashBin plainItem =
        withDropErr plainItem (recycleResource env7 plainItem) ∧
    handleContentItemDrop env7 favTarget plainItem =
        withDropErr plainItem (addToMyFavorites env7 plainItem) ∧
    handleContentItemDrop env7 plainTarget plainItem =
        withDropErr plainItem
          (env7.moveToResult plainItem "uriPt",
            Effect.remoteMove plainItem.uri "uriPt" ::
              (if env7.moveToResult plainItem "uriPt" then [Effect.refresh]
               else [])) :=
  ⟨(handleContentItemDrop_precedence env7 favTarget binItem).1 rfl,
    (handleContentItemDrop_precedence env7 favTarget refItem).2.1 rfl
      (by decide),
    (handleContentItemDrop_precedence env7 trashBin plainItem).2.2.1 rfl
      (by decide) rfl,
    (handleContentItemDrop_precedence env7 favTarget plainItem).2.2.2.1 rfl
      (by decide) (by decide) rfl,
    (handleContentItemDrop_precedence env7 plainTarget plainItem).2.2.2.2
      "uriPt" rfl (by decide) (by decide) (by decide) (by decide)⟩

/-- C4: rename-with-open-editor discipline — when a matching tab is open the
close is requested first; a declined close aborts the rename with no remote
call and no re-open; an accepted close followed by a successful rename
re-opens the document at the new uri; with no matching tab the rename
proceeds and never opens a document. -/
theorem renameResource_close_discipline (env : Env) (item : ContentItem)
    (nm : String) :
    (matchingTab env item ≠ none → env.closeTabResult = false →
      renameResource env item nm = (none, [Effect.closeTab])) ∧
    (∀ ni : ContentItem, matchingTab env item ≠ none →
      env.closeTabResult = true → env.renameResult item nm = some ni →
      renameResource env item nm =
        (some (getUri ni false),
          [Effect.closeTab, Effect.remoteRename item.uri nm,
            Effect.openDoc (getUri ni false)])) ∧
    (matchingTab env item = none →
      (renameResource env item nm).2 = [Effect.remoteRename item.uri nm] ∧
      (renameResource env item nm).1 =
        (env.renameResult item nm).map (fun ni => getUri ni false)) := by
  cases hmt : matchingTab env item with
  | none =>
    refine ⟨fun h => absurd rfl h, fun ni h => absurd rfl h, fun _ => ?_⟩
    cases hr : env.renameResult item nm <;>
      simp [renameResource, closeFileIfOpen, hmt, hr, ClosingResult.toBool]
  | some t =>
    refine ⟨fun _ hb => ?_, fun ni _ hb hr => ?_,
      fun h => Option.noConfusion h⟩
    · simp [renameResource, closeFileIfOpen, hmt, hb, ClosingResult.toBool]
    · simp [renameResource, closeFileIfOpen, hmt, hb, hr,
        ClosingResult.toBool]

/-- Witness for C4: the user declines the close — the rename aborts after
the close attempt; the close and rename succeed — the document is re-opened
at the new uri; no tab matches — only the remote rename happens. -/
theorem renameResource_close_discipline_witness :
    renameResource env4a item4 "renamed" = (none, [Effect.closeTab]) ∧
    renameResource env4b item4 "renamed" =
      (some (getUri (mkItem "f4" "renamed" "file" "uri4" "root") false),
        [Effect.closeTab, Effect.remoteRename item4.uri "renamed",
          Effect.openDoc
            (getUri (mkItem "f4" "renamed" "file" "uri4" "root") false)]) ∧
    ((renameResource env4c item4 "renamed").2 =
        [Effect.remoteRename item4.uri "renamed"] ∧
      (renameResource env4c item4 "renamed").1 =
        (env4c.renameResult item4 "renamed").map (fun ni => getUri ni false)) :=
  ⟨(renameResource_close_discipline env4a item4 "renamed").1 (by decide) rfl,
    (renameResource_close_discipline env4b item4 "renamed").2.1
      (mkItem "f4" "renamed" "file" "uri4" "root") (by decide) rfl rfl,
    (renameResource_close_discipline env4c item4 "renamed").2.2 (by decide)⟩

/-- C10: `createFolder`, `createFile`, `deleteResource`, `recycleResource`,
`restoreResource`, `addToMyFavorites` and `removeFromMyFavorites` fire the
tree-shape-changed notification exactly when the underlying model operation
succeeds, and `renameResource` never fires it. -/
theorem refresh_iff_success (env : Env) (item : ContentItem) (nm : String)
    (buf : Option String) :
    (countRefresh (createFolder env item nm).2 =
      if (createFolder env item nm).1.isSome then 1 else 0) ∧
    (countRefresh (createFile env item nm buf).2 =
      if (createFile env item nm buf).1.isSome then 1 else 0) ∧
    (countRefresh (deleteResource env item).2 =
      if (deleteResource env item).1 then 1 else 0) ∧
    (countRefresh (recycleResource env item).2 =
      if (recycleResource env item).1 then 1 else 0) ∧
    (countRefresh (restoreResource env item).2 =
      if (restoreResource env item).1 then 1 else 0) ∧
    (countRefresh (addToMyFavorites env item).2 =
      if (addToMyFavorites env item).1 then 1 else 0) ∧
    (countRefresh (removeFromMyFavorites env item).2 =
      if (removeFromMyFavorites env item).1 then 1 else 0) ∧
    countRefresh (renameResource env item nm).2 = 0 :=
  ⟨countRefresh_createFolder env item nm,
    countRefresh_createFile env item nm buf,
    countRefresh_deleteResource env item,
    countRefresh_recycleResource env item,
    countRefresh_restoreResource env item,
    countRefresh_addToMyFavorites env item,
    countRefresh_removeFromMyFavorites env item,
    countRefresh_renameResource env item nm⟩

/-- C5: export — a container's effective children are the sub-selections
whose parent locator equals the container when that subset is non-empty, and
otherwise the freshly fetched child list; the concrete `[A, A/x, A/y]`
selection writes exactly `x` and `y` with no fetch; and the destination
directory of a container is created before any trace of its descendants
(whatever precedes it is at most the fetch effect). -/
theorem download_effective_children (fuel : Nat) (env : Env)
    (sel : ContentItem) (selections allSelections : List ContentItem)
    (folderUri : String) :
    ((allSelections.filter
        (fun fs => fs.parentFolderUri == sel.uri)).length > 0 →
      childrenSelections env sel allSelections =
        (allSelections.filter (fun fs => fs.parentFolderUri == sel.uri),
          [])) ∧
    ((allSelections.filter
        (fun fs => fs.parentFolderUri == sel.uri)).length = 0 →
      childrenSelections env sel allSelections =
        (env.childrenOf (some sel), [Effect.fetchChildren sel.uri])) ∧
    (isContainer sel = true →
      downloadContentItems (fuel + 1) env folderUri (sel :: selections)
          allSelections =
        ((childrenSelections env sel allSelections).2 ++
          (Effect.fsCreateDir (joinPath folderUri sel.name) ::
            downloadContentItems fuel env (joinPath folderUri sel.name)
              (childrenSelections env sel allSelections).1 allSelections)) ++
          downloadContentItems (fuel + 1) env folderUri selections
            allSelections) ∧
    ((childrenSelections env sel allSelections).2 = [] ∨
      (childrenSelections env sel allSelections).2 =
        [Effect.fetchChildren sel.uri]) ∧
    downloadContentItems 2 envA "dest" [folderA] [folderA, fileX, fileY] =
      [Effect.fsCreateDir "dest/A",
        Effect.readContent (getUri fileX false),
        Effect.fsWriteFile "dest/A/x",
        Effect.readContent (getUri fileY false),
        Effect.fsWriteFile "dest/A/y"] := by
  refine ⟨fun h => ?_, fun h => ?_, fun h => ?_, ?_, by decide⟩
  · simp [childrenSelections, h]
  · simp [childrenSelections, getChildrenE, h]
  · simp [downloadContentItems, downloadList, h]
  · by_cases h : (allSelections.filter
        (fun fs => fs.parentFolderUri == sel.uri)).length > 0
    · exact Or.inl (by simp [childrenSelections, h])
    · exact Or.inr (by simp [childrenSelections, getChildrenE, h])

/-- Witness for C5: with `A`, `A/x`, `A/y` all selected, the effective
children of `A` are the filtered sub-selections with no fetch; with no
sub-selections the fetched child list is used; and the container equation
holds at a concrete export. -/
theorem download_effective_children_witness :
    childrenSelections envA folderA [folderA, fileX, fileY] =
      ([folderA, fileX, fileY].filter
          (fun fs => fs.parentFolderUri == folderA.uri), []) ∧
    childrenSelections envA folderA [] =
      (envA.childrenOf (some folderA), [Effect.fetchChildren folderA.uri]) ∧
    downloadContentItems 1 envA "dest" [folderA] [folderA, fileX, fileY] =
      ((childrenSelections envA folderA [folderA, fileX, fileY]).2 ++
        (Effect.fsCreateDir (joinPath "dest" folderA.name) ::
          downloadContentItems 0 envA (joinPath "dest" folderA.name)
            (childrenSelections envA folderA [folderA, fileX, fileY]).1
            [folderA, fileX, fileY])) ++
        downloadContentItems 1 envA "dest" [] [folderA, fileX, fileY] :=
  ⟨(download_effective_children 0 envA folderA [] [folderA, fileX, fileY]
      "dest").1 (by decide),
    (download_effective_children 0 envA folderA [] [] "dest").2.1
      (by decide),
    (download_effective_children 0 envA folderA [] [folderA, fileX, fileY]
      "dest").2.2.1 (by decide)⟩

/-- C7 counterexample: a drop payload of two internal items, both moved
successfully, produces two tree-change refreshes — one per item — not a
single refresh after the whole batch. -/
theorem handleDrop_refresh_count_two :
    countRefresh
        (handleDrop 1 env7 plainTarget (some [item7a, item7b]) none) = 2 ∧
      countRefresh
        (handleDrop 1 env7 plainTarget (some [item7a, item7b]) none) ≠ 1 := by
  constructor
  · decide
  · decide

/-- C7 amended: `handleDrop` requests no refresh of its own after the batch;
for an internal-item payload every successfully processed item requests
exactly one refresh inside its own handler and a failed item requests none,
so the batch total equals the number of successful items. -/
theorem handleDrop_refresh_per_successful_item (fuel : Nat) (env : Env)
    (target : ContentItem) (items : List ContentItem) :
    countRefresh (handleDrop fuel env target (some items) none) =
      items.countP (fun it => (handleContentItemDrop env target it).1) := by
  induction items with
  | nil => simp [handleDrop, countRefresh, List.countP_nil]
  | cons it rest ih =>
    simp only [handleDrop, List.map_cons, List.flatten_cons,
      List.append_nil] at ih ⊢
    rw [countRefresh_append, countRefresh_handleContentItemDrop, ih,
      List.countP_cons]
    cases h : (handleContentItemDrop env target it).1 <;>
      simp [h, Nat.add_comm]

theorem countUploadErr_nil : countUploadErr [] = 0 := rfl

theorem countUploadErr_cons (e : Effect) (tr : List Effect) :
    countUploadErr (e :: tr) =
      countUploadErr tr + (if isUploadErr e then 1 else 0) := by
  simp [countUploadErr, List.countP_cons]

theorem countUploadErr_append (a b : List Effect) :
    countUploadErr (a ++ b) = countUploadErr a + countUploadErr b := by
  simp [countUploadErr, List.countP_append]

theorem countAttempts_append (a b : List Effect) :
    countAttempts (a ++ b) = countAttempts a + countAttempts b := by
  simp [countAttempts, List.countP_append]

theorem countAttempts_nil : countAttempts [] = 0 := rfl

theorem countAttempts_cons (e : Effect) (tr : List Effect) :
    countAttempts (e :: tr) =
      countAttempts tr + (if isCreateAttempt e then 1 else 0) := by
  simp [countAttempts, List.countP_cons]

theorem countUploadErr_createFile (env : Env) (item : ContentItem)
    (nm : String) (buf : Option String) :
    countUploadErr (createFile env item nm buf).2 = 0 := by
  cases hc : env.createFileResult item nm <;>
    simp [createFile, hc, countUploadErr, List.countP_cons, List.countP_nil,
      isUploadErr]

theorem countUploadErr_dropEntries (env : Env)
    (h : ContentItem → String → List FsEntry → Bool × List Effect)
    (hh : ∀ fi p es, countUploadErr (h fi p es).2 = 0)
    (folderItem : ContentItem) (path : String) (dem : Bool) :
    ∀ (es : List FsEntry) (succ : Bool),
      countUploadErr (dropEntries env h folderItem path dem es succ).2 = 0 := by
  intro es
  induction es with
  | nil => intro succ; simp [dropEntries, countUploadErr_nil]
  | cons e rest ih =>
    intro succ
    cases e with
    | dir name sub =>
      simp [dropEntries, countUploadErr_append, hh, ih]
    | file name content =>
      cases hc : env.createFileResult folderItem name <;> cases dem <;>
        simp [dropEntries, createFile, hc, countUploadErr_append,
          countUploadErr_cons, countUploadErr_nil, isUploadErr,
          fileDropErrorMsg, fileUploadErrorMsg, ih]

theorem countUploadErr_handleFolderDrop (env : Env) :
    ∀ (fuel : Nat) (target : ContentItem) (path : String)
      (es : List FsEntry) (dem : Bool),
      countUploadErr (handleFolderDrop fuel env target path es dem).2 = 0 := by
  intro fuel
  induction fuel with
  | zero =>
    intro target path es dem
    simp [handleFolderDrop, countUploadErr_nil]
  | succ f ih =>
    intro target path es dem
    cases hc : env.createFolderResult target (basename path) with
    | none =>
      cases dem <;>
        simp [handleFolderDrop, hc, countUploadErr_cons, countUploadErr_nil,
          isUploadErr, fileDropErrorMsg, fileUploadErrorMsg]
    | some folderItem =>
      have hd := countUploadErr_dropEntries env
        (fun fi p es2 => handleFolderDrop f env fi p es2 true)
        (fun fi p es2 => ih fi p es2 true) folderItem path dem es true
      simp [handleFolderDrop, hc, countUploadErr_cons, isUploadErr, hd]

theorem countUploadErr_uploadLoop (fuel : Nat) (env : Env)
    (target : ContentItem) :
    ∀ (uris : List LocalUri) (failed : List String),
      countUploadErr (uploadLoop fuel env target uris failed).2 = 0 := by
  intro uris
  induction uris with
  | nil => intro failed; simp [uploadLoop, countUploadErr_nil]
  | cons u rest ih =>
    intro failed
    cases u with
    | dirUri path entries =>
      simp [uploadLoop, countUploadErr_append,
        countUploadErr_handleFolderDrop env, ih]
    | fileUri path content =>
      simp [uploadLoop, countUploadErr_append, countUploadErr_createFile, ih]

theorem countAttempts_handleFolderDrop_leaf (fuel : Nat) (env : Env)
    (fi : ContentItem) (p : String) :
    countAttempts (handleFolderDrop (fuel + 1) env fi p [] true).2 = 1 := by
  cases hc : env.createFolderResult fi (basename p) <;>
    simp [handleFolderDrop, hc, dropEntries, countAttempts, List.countP_cons,
      List.countP_nil, isCreateAttempt]

theorem countAttempts_shallow_dropEntries (fuel : Nat) (env : Env)
    (folderItem : ContentItem) (path : String) (dem : Bool) :
    ∀ es : List FsEntry, es.all shallowEntry = true → ∀ succ : Bool,
      countAttempts
        (dropEntries env
          (fun fi p es2 => handleFolderDrop (fuel + 1) env fi p es2 true)
          folderItem path dem es succ).2 = es.length := by
  intro es
  induction es with
  | nil => intro _ succ; simp [dropEntries, countAttempts, List.countP_nil]
  | cons e rest ih =>
    intro hall succ
    rw [List.all_cons, Bool.and_eq_true] at hall
    cases e with
    | file name content =>
      cases hc : env.createFileResult folderItem name <;> cases dem <;>
        simp [dropEntries, createFile, hc, countAttempts_append,
          countAttempts_cons, countAttempts_nil, isCreateAttempt, ih hall.2,
          Nat.add_comm]
    | dir name sub =>
      cases sub with
      | cons a b => simp [shallowEntry, List.isEmpty] at hall
      | nil =>
        simp [dropEntries, countAttempts_append,
          countAttempts_handleFolderDrop_leaf fuel env, ih hall.2,
          Nat.add_comm]

/-- C6: folder import — the remote folder is created first and a creation
failure aborts the branch with no file creations, a `false` result and (when
messages are enabled) exactly one error naming the folder; within a
directory every sibling entry is attempted no matter which entries fail;
the batch uploader raises exactly one consolidated notification exactly when
its failed-name list is non-empty. -/
theorem folderImport_branch_abort_and_aggregation (fuel : Nat) (env : Env)
    (target folderItem : ContentItem) (path : String)
    (entries : List FsEntry) (dem succ : Bool) (uris : List LocalUri) :
    (env.createFolderResult target (basename path) = none →
      handleFolderDrop (fuel + 1) env target path entries dem =
        (false,
          Effect.remoteCreateFolder target.uri (basename path) ::
            (if dem then [Effect.showError fileDropErrorMsg (basename path)]
             else []))) ∧
    (∀ es : List FsEntry, es.all shallowEntry = true →
      countAttempts
        (dropEntries env
          (fun fi p es2 => handleFolderDrop (fuel + 1) env fi p es2 true)
          folderItem path dem es succ).2 = es.length) ∧
    (countUploadErr (uploadUrisToTarget fuel env uris target).2 =
      if (uploadUrisToTarget fuel env uris target).1.length > 0 then 1
      else 0) := by
  refine ⟨fun h => ?_, fun es hall => ?_, ?_⟩
  · simp [handleFolderDrop, h]
  · exact countAttempts_shallow_dropEntries fuel env folderItem path dem es
      hall succ
  · simp only [uploadUrisToTarget]
    rw [countUploadErr_append, countUploadErr_uploadLoop]
    by_cases hl : (uploadLoop fuel env target uris []).1.length > 0 <;>
      simp [hl, handleCreationResponse, countUploadErr_cons, countUploadErr_nil,
        isUploadErr]

/-- Witness for C6: with every remote call failing, importing a directory of
three files fails at the folder itself — zero file creations, one reported
name — and a directory whose entries are a file and an empty subdirectory
attempts both entries. -/
theorem folderImport_branch_abort_and_aggregation_witness :
    handleFolderDrop 1 baseEnv dropTarget "d"
        [FsEntry.file "a" "", FsEntry.file "b" "", FsEntry.file "c" ""] true =
      (false,
        [Effect.remoteCreateFolder dropTarget.uri (basename "d"),
          Effect.showError fileDropErrorMsg (basename "d")]) ∧
    countAttempts
        (dropEntries baseEnv
          (fun fi p es2 => handleFolderDrop 1 baseEnv fi p es2 true)
          dropTarget "d" true
          [FsEntry.file "a" "", FsEntry.dir "s" []] true).2 = 2 :=
  ⟨by
    simpa using
      (folderImport_branch_abort_and_aggregation 0 baseEnv dropTarget
        dropTarget "d"
        [FsEntry.file "a" "", FsEntry.file "b" "", FsEntry.file "c" ""] true
        true []).1 rfl,
    by
    simpa using
      (folderImport_branch_abort_and_aggregation 0 baseEnv dropTarget
        dropTarget "d" [] true true []).2.1
        [FsEntry.file "a" "", FsEntry.dir "s" []] (by decide)⟩

/-- C8: `recycleResource` — with no recycle-bin delegate it degrades to
`deleteResource`; with a delegate whose self address cannot be resolved it
returns `false` having performed no move; and on a successful move it
refreshes and emits the document-content-changed event for the item's
previous read-only uri. -/
theorem recycleResource_spec (env : Env) (item : ContentItem) :
    (env.delegateFolder "@myRecycleBin" = none →
      recycleResource env item = deleteResource env item) ∧
    (∀ bin : ContentItem, env.delegateFolder "@myRecycleBin" = some bin →
      linkUri bin.links "GET" "self" = none →
      recycleResource env item = (false, [])) ∧
    (∀ (bin : ContentItem) (u : String),
      env.delegateFolder "@myRecycleBin" = some bin →
      linkUri bin.links "GET" "self" = some u →
      (closeFileIfOpen env item).1.toBool = true →
      env.moveToResult item u = true →
      recycleResource env item =
        (true,
          (closeFileIfOpen env item).2 ++
            Effect.remoteMove item.uri u ::
              [Effect.refresh, Effect.docChanged (getUri item true)])) := by
  refine ⟨fun h => ?_, fun bin h hl => ?_, fun bin u h hl hc hm => ?_⟩
  · simp [recycleResource, h]
  · simp [recycleResource, h, hl]
  · simp [recycleResource, h, hl, hc, hm]

/-- Witness for C8: the fallback to delete, the unresolvable self address,
and the successful move with its read-only content-changed event, each at a
concrete environment. -/
theorem recycleResource_spec_witness :
    recycleResource baseEnv plainItem = deleteResource baseEnv plainItem ∧
    recycleResource env8b plainItem = (false, []) ∧
    recycleResource env8 plainItem =
      (true,
        (closeFileIfOpen env8 plainItem).2 ++
          Effect.remoteMove plainItem.uri "/trash" ::
            [Effect.refresh, Effect.docChanged (getUri plainItem true)]) :=
  ⟨(recycleResource_spec baseEnv plainItem).1 rfl,
    (recycleResource_spec env8b plainItem).2.1 trashBinNoSelf rfl rfl,
    (recycleResource_spec env8 plainItem).2.2 trashBin "/trash" rfl
      (by decide) rfl rfl⟩

theorem tabPred_iff (q : String) (t : Tab) :
    (match t.input with
      | TabInput.text u => u.query == q
      | TabInput.notebook u => u.query == q
      | TabInput.other => false) = true ↔ tabQuery t = some q := by
  cases t with
  | mk input => cases input <;> simp [tabQuery]

theorem matchingTab_none_iff (env : Env) (item : ContentItem) :
    matchingTab env item = none ↔
      ∀ t ∈ env.openTabs,
        tabQuery t ≠ some ((getUri item (isItemInRecycleBin item)).query) := by
  unfold matchingTab
  rw [List.find?_eq_none]
  constructor
  · intro h t ht hq
    exact h t ht ((tabPred_iff _ t).mpr hq)
  · intro h t ht hp
    exact h t ht ((tabPred_iff _ t).mp hp)

theorem closeFileIfOpen_noTab_iff (env : Env) (item : ContentItem) :
    (closeFileIfOpen env item).1 = ClosingResult.noTab ↔
      matchingTab env item = none := by
  unfold closeFileIfOpen
  cases matchingTab env item <;> simp

/-- C9: `closeFileIfOpen` decides openness by comparing only the query
component of the item's uri — derived read-only exactly when the item is in
the recycle bin — against the uris of the open text and notebook tabs; with
no matching tab it returns the literal `true` with no close attempt, and
otherwise it returns the editor's close answer after one close attempt. -/
theorem closeFileIfOpen_query_only (env : Env) (item : ContentItem) :
    ((closeFileIfOpen env item).1 = ClosingResult.noTab ↔
      ∀ t ∈ env.openTabs,
        tabQuery t ≠ some ((getUri item (isItemInRecycleBin item)).query)) ∧
    ((closeFileIfOpen env item).2 =
      match (closeFileIfOpen env item).1 with
      | ClosingResult.noTab => []
      | ClosingResult.closed _ => [Effect.closeTab]) ∧
    ((closeFileIfOpen env item).1 = ClosingResult.noTab ∨
      (closeFileIfOpen env item).1 =
        ClosingResult.closed env.closeTabResult) ∧
    ClosingResult.noTab.toBool = true ∧
    (getUri item true).query = (getUri item false).query ∧
    isItemInRecycleBin item = item.flags.isInRecycleBin := by
  refine ⟨?_, ?_, ?_, rfl, rfl, rfl⟩
  · rw [closeFileIfOpen_noTab_iff]
    exact matchingTab_none_iff env item
  · rcases closeFileIfOpen_cases env item with h | h <;> rw [h]
  · rcases closeFileIfOpen_cases env item with h | h
    · exact Or.inl (by rw [h])
    · exact Or.inr (by rw [h])

/-- Witness for C9: a notebook tab agreeing with the trashed item's
read-only uri only in the query component is still treated as a matching
open document. -/
theorem closeFileIfOpen_query_only_witness :
    (closeFileIfOpen env9 item9).1 ≠ ClosingResult.noTab :=
  fun h =>
    ((closeFileIfOpen_query_only env9 item9).1.mp h) tab9 (by decide)
      (by decide)

end ContentNav
